import Mathlib

/-!
Shallow embedding of `src/database/comparator.rs` from the `leveldb` Rust crate:
the typed `Comparator` trait, the two built-in implementations (`OrdComparator`,
`DefaultComparator`), the three C boundary adapters (`name`, `compare`,
`destructor`) and the handle factory `create_comparator`.

Modelling choices:
* A raw byte buffer handed across the C boundary (pointer plus length) is
  modelled as the `List Nat` of bytes that `slice::from_raw_parts` reconstructs
  from it; a zero-length buffer is the empty list.
* The key capability `from_u8 : &[u8] -> K` (defined in `database/key.rs`,
  outside the embedded file) is an external collaborator; the adapters are
  parameterized by an arbitrary total function `List Nat → K`, matching the
  trait bound `K : Key`.
* A type implementing the `Comparator` trait is modelled in dictionary form:
  a `ComparatorImpl K` bundles the state behind the opaque pointer together
  with its method implementations.
* Ownership across the boundary is modelled by explicit state passing: a
  `HandleState` records whether the boxed comparator is still owned by the
  handle and how many times the wrapped value has been dropped.
-/

/-- Bytes exposed by the pointer `s.as_ptr()` returns for a Rust `String` or
`str`: exactly the UTF-8 bytes of the string. `as_ptr` appends nothing, in
particular no NUL terminator (`comparator.rs` lines 92-95 and 105-107). -/
def strBytes (s : String) : List Nat :=
  (s.data.flatMap String.utf8EncodeChar).map UInt8.toNat

/-- The `match` at `comparator.rs` lines 66-70, translating a three-way
`Ordering` into the signed-integer convention of the C engine. -/
def orderingToInt : Ordering → Int
  | Ordering.lt => -1
  | Ordering.eq => 0
  | Ordering.gt => 1

/-- Dictionary form of the `Comparator` trait (`comparator.rs` lines 22-34) at
key type `K`: one value of an implementing type `T` (the state the opaque
pointer refers to) bundled with its method implementations. `nameBytes` is the
byte buffer the pointer returned by `name()` exposes; `null` is the value of
the (static) `null()` method for `T`. -/
structure ComparatorImpl (K : Type) where
  nameBytes : List Nat
  compare : K → K → Ordering
  null : Bool

/-- Body of the trait-provided default for `Comparator::null` (`comparator.rs`
lines 31-33). -/
def Comparator.nullDefault : Bool := false

/-- `OrdComparator<K>` (`comparator.rs` lines 37-40): stores only the identity
string; the `PhantomData` marker has no runtime content. -/
structure OrdComparator (K : Type) where
  name : String

/-- `OrdComparator::new` (`comparator.rs` lines 44-46). -/
def OrdComparator.new {K : Type} (n : String) : OrdComparator K :=
  { name := n }

/-- `OrdComparator::compare` (`comparator.rs` lines 97-99): `a.cmp(b)`, the key
type's own `Ord` comparison, returned unmodified. -/
def OrdComparator.compare {K : Type} [Ord K] (_self : OrdComparator K) (a b : K) : Ordering :=
  Ord.compare a b

/-- Byte buffer exposed by `OrdComparator::name` (`comparator.rs` lines 92-95):
`self.name.as_ptr()` points at the UTF-8 bytes of the stored `String`. -/
def OrdComparator.nameBytes {K : Type} (self : OrdComparator K) : List Nat :=
  strBytes self.name

/-- `OrdComparator` does not override `Comparator::null`, so its value is the
trait default (`comparator.rs` lines 89-100 contain no `null`). -/
def OrdComparator.null : Bool := Comparator.nullDefault

/-- `DefaultComparator` (`comparator.rs` line 50): a stateless sentinel. -/
structure DefaultComparator

/-- `DefaultComparator::compare` (`comparator.rs` lines 109-111): ignores both
arguments and returns `Ordering::Equal`. Its associated key type is `i32`,
modelled as `Int`. -/
def DefaultComparator.compare (_self : DefaultComparator) (_a _b : Int) : Ordering :=
  Ordering.eq

/-- Byte buffer exposed by `DefaultComparator::name` (`comparator.rs` lines
105-107): `"default_comparator".as_ptr()`, the UTF-8 bytes of the literal. -/
def DefaultComparator.nameBytes (_self : DefaultComparator) : List Nat :=
  strBytes "default_comparator"

/-- `DefaultComparator`'s override of `Comparator::null` (`comparator.rs`
lines 113-115). -/
def DefaultComparator.null : Bool := true

/-- The trait dictionary of `OrdComparator<K>` for `K : Ord`
(`comparator.rs` lines 89-100). -/
def OrdComparator.impl {K : Type} [Ord K] (self : OrdComparator K) : ComparatorImpl K :=
  { nameBytes := self.nameBytes, compare := self.compare, null := OrdComparator.null }

/-- The trait dictionary of `DefaultComparator` (`comparator.rs` lines
102-116). -/
def DefaultComparator.impl (self : DefaultComparator) : ComparatorImpl Int :=
  { nameBytes := self.nameBytes, compare := self.compare, null := DefaultComparator.null }

/-- The `name` boundary adapter (`comparator.rs` lines 52-55): reinterprets the
state pointer as a shared reference to `T` and returns `T::name()`. -/
def Adapter.name {K : Type} (state : ComparatorImpl K) : List Nat :=
  state.nameBytes

/-- The `compare` boundary adapter (`comparator.rs` lines 57-72): reconstructs
the two byte slices, reinterprets the state pointer as a shared reference to
`T`, rebuilds both keys with `from_u8`, calls `T::compare` and translates the
`Ordering` with the `match` of lines 66-70. -/
def Adapter.compare {K : Type} (from_u8 : List Nat → K) (state : ComparatorImpl K)
    (a b : List Nat) : Int :=
  orderingToInt (state.compare (from_u8 a) (from_u8 b))

/-- One call the engine can make on a live handle: the three adapters bound by
`create_comparator` (`comparator.rs` lines 80-87). -/
inductive CallEvent where
  | nameCall : CallEvent
  | compareCall : List Nat → List Nat → CallEvent
  | destroyCall : CallEvent
deriving DecidableEq

/-- Ownership state of a native handle: `state` is the boxed comparator owned
through the opaque pointer (`none` once reclaimed), `drops` counts how many
times the wrapped `T` value has been dropped. -/
structure HandleState (K : Type) where
  state : Option (ComparatorImpl K)
  drops : Nat

/-- `create_comparator` (`comparator.rs` lines 80-87): moves the boxed
comparator behind the opaque state pointer; the fresh handle owns it and no
drop has happened yet. -/
def create_comparator {K : Type} (x : ComparatorImpl K) : HandleState K :=
  { state := some x, drops := 0 }

/-- Ownership effect of one adapter call. `name` (lines 52-55) and `compare`
(lines 57-72) only reinterpret the pointer as a shared reference, so the state
is unchanged; `destructor` (lines 74-77) reconstructs the `Box<T>` from the
pointer and lets it fall out of scope, running the drop of `T` once and
leaving the handle without an owned comparator. -/
def Handle.step {K : Type} (s : HandleState K) : CallEvent → HandleState K
  | CallEvent.nameCall => s
  | CallEvent.compareCall _ _ => s
  | CallEvent.destroyCall => { state := none, drops := s.drops + 1 }

/-- A sequence of engine calls on a handle. -/
def Handle.run {K : Type} (s : HandleState K) (es : List CallEvent) : HandleState K :=
  es.foldl Handle.step s

/-- Running calls that never include the teardown adapter leaves the handle
state unchanged: `name` and `compare` borrow the comparator without taking
ownership. -/
theorem Handle.run_no_destroy {K : Type} (s : HandleState K) (es : List CallEvent)
    (h : ∀ e ∈ es, e ≠ CallEvent.destroyCall) : Handle.run s es = s := by
  induction es with
  | nil => rfl
  | cons e es ih =>
    have he : e ≠ CallEvent.destroyCall := h e (List.mem_cons_self e es)
    have hstep : Handle.step s e = s := by
      cases e with
      | nameCall => rfl
      | compareCall a b => rfl
      | destroyCall => exact absurd rfl he
    show Handle.run (Handle.step s e) es = s
    rw [hstep]
    exact ih fun x hx => h x (List.mem_cons_of_mem e hx)

/-- Claim C1: for every comparator dictionary, key capability and pair of byte
buffers, the `compare` adapter returns a negative integer exactly when the
underlying order on the reconstructed keys is `Less`, zero exactly when it is
`Equal`, and a positive integer exactly when it is `Greater`. -/
theorem compare_adapter_sign_matches_order {K : Type} (from_u8 : List Nat → K)
    (st : ComparatorImpl K) (a b : List Nat) :
    (Adapter.compare from_u8 st a b < 0 ↔
      st.compare (from_u8 a) (from_u8 b) = Ordering.lt) ∧
    (Adapter.compare from_u8 st a b = 0 ↔
      st.compare (from_u8 a) (from_u8 b) = Ordering.eq) ∧
    (0 < Adapter.compare from_u8 st a b ↔
      st.compare (from_u8 a) (from_u8 b) = Ordering.gt) := by
  have h : ∀ o : Ordering,
      (orderingToInt o < 0 ↔ o = Ordering.lt) ∧
      (orderingToInt o = 0 ↔ o = Ordering.eq) ∧
      (0 < orderingToInt o ↔ o = Ordering.gt) := by
    intro o
    cases o <;> exact ⟨by decide, by decide, by decide⟩
  exact h (st.compare (from_u8 a) (from_u8 b))

/-- Claim C2: `OrdComparator::compare` returns the key type's own `Ord`
comparison result unmodified. -/
theorem ord_comparator_compare_is_intrinsic {K : Type} [Ord K]
    (c : OrdComparator K) (a b : K) :
    OrdComparator.compare c a b = Ord.compare a b := rfl

/-- Claim C3, counter-evidence: the byte buffers exposed by
`OrdComparator::name` and `DefaultComparator::name` contain no NUL byte at
all — `as_ptr` on a Rust `String` or `str` literal exposes the UTF-8 bytes
with no terminator appended — so the returned identity strings are not
null-terminated. -/
theorem name_bytes_lack_nul_terminator :
    ((OrdComparator.new "int_asc" : OrdComparator Int).nameBytes).contains 0 = false ∧
    (DefaultComparator.nameBytes ⟨⟩).contains 0 = false := by
  constructor
  · rfl
  · rfl

/-- Claim C4: for the ordered-key comparator over a key type whose `Ord`
satisfies the total-order contract the Rust `Ord` trait demands (modelled by
`LinearOrder`), `order(a,b)` and `order(b,a)` are exact inverses:
`Less ↔ Greater` and `Equal ↔ Equal`. -/
theorem ord_comparator_order_flips {K : Type} [LinearOrder K]
    (c : OrdComparator K) (a b : K) :
    (OrdComparator.compare c a b = Ordering.lt ↔
      OrdComparator.compare c b a = Ordering.gt) ∧
    (OrdComparator.compare c a b = Ordering.eq ↔
      OrdComparator.compare c b a = Ordering.eq) := by
  constructor
  · show compare a b = Ordering.lt ↔ compare b a = Ordering.gt
    rw [compare_lt_iff_lt, compare_gt_iff_gt]
  · show compare a b = Ordering.eq ↔ compare b a = Ordering.eq
    rw [compare_eq_iff_eq, compare_eq_iff_eq]
    exact eq_comm

/-- Claim C5: the null/sentinel comparator's `compare` returns `Equal` for
every input pair. -/
theorem default_comparator_compare_always_eq (c : DefaultComparator) (a b : Int) :
    DefaultComparator.compare c a b = Ordering.eq := rfl

/-- Claim C6: `DefaultComparator::null` is `true`, the trait default is
`false`, and `OrdComparator` (which does not override it) has `false`. -/
theorem null_sentinel_flags :
    DefaultComparator.null = true ∧ OrdComparator.null = false ∧
      Comparator.nullDefault = false :=
  ⟨rfl, rfl, rfl⟩

/-- Claim C7: the `compare` adapter tolerates zero-length buffers: with one or
both buffers empty it still reconstructs both keys via the key capability and
returns the signed translation of the underlying order, never failing (it is a
total function). -/
theorem compare_adapter_tolerates_empty_buffers {K : Type} (from_u8 : List Nat → K)
    (st : ComparatorImpl K) (b : List Nat) :
    Adapter.compare from_u8 st [] b =
      orderingToInt (st.compare (from_u8 []) (from_u8 b)) ∧
    Adapter.compare from_u8 st b [] =
      orderingToInt (st.compare (from_u8 b) (from_u8 [])) ∧
    Adapter.compare from_u8 st [] [] =
      orderingToInt (st.compare (from_u8 []) (from_u8 [])) :=
  ⟨rfl, rfl, rfl⟩

/-- Claim C8: after any sequence of `name`/`compare` calls the handle still
owns the comparator and no drop has run; a single subsequent `destructor` call
reclaims ownership (state becomes `none`) and runs the wrapped comparator's
drop exactly once. -/
theorem destructor_drops_exactly_once {K : Type} (x : ComparatorImpl K)
    (es : List CallEvent) (h : ∀ e ∈ es, e ≠ CallEvent.destroyCall) :
    (Handle.run (create_comparator x) es).state = some x ∧
    (Handle.run (create_comparator x) es).drops = 0 ∧
    (Handle.run (create_comparator x) (es ++ [CallEvent.destroyCall])).state = none ∧
    (Handle.run (create_comparator x) (es ++ [CallEvent.destroyCall])).drops = 1 := by
  have hrun : Handle.run (create_comparator x) es = create_comparator x :=
    Handle.run_no_destroy (create_comparator x) es h
  have happ : Handle.run (create_comparator x) (es ++ [CallEvent.destroyCall]) =
      Handle.step (Handle.run (create_comparator x) es) CallEvent.destroyCall := by
    show List.foldl Handle.step (create_comparator x) (es ++ [CallEvent.destroyCall]) = _
    rw [List.foldl_append]
    rfl
  refine ⟨by rw [hrun]; rfl, by rw [hrun]; rfl, ?_, ?_⟩
  · rw [happ, hrun]; rfl
  · rw [happ, hrun]; rfl

/-- Witness for C8: a concrete handle over the sentinel comparator, one `name`
call and one `compare` call, then one teardown: the drop ran exactly once and
the comparator is reclaimed. -/
theorem destructor_drops_exactly_once_witness :
    (Handle.run (create_comparator (DefaultComparator.impl ⟨⟩))
      ([CallEvent.nameCall, CallEvent.compareCall [] []] ++
        [CallEvent.destroyCall])).state = none ∧
    (Handle.run (create_comparator (DefaultComparator.impl ⟨⟩))
      ([CallEvent.nameCall, CallEvent.compareCall [] []] ++
        [CallEvent.destroyCall])).drops = 1 := by
  have h := destructor_drops_exactly_once (DefaultComparator.impl ⟨⟩)
    [CallEvent.nameCall, CallEvent.compareCall [] []] (by decide)
  exact ⟨h.2.2.1, h.2.2.2⟩

/-- Claim C9: the `compare` adapter's result is exactly one of -1, 0, 1. -/
theorem compare_adapter_result_in_range {K : Type} (from_u8 : List Nat → K)
    (st : ComparatorImpl K) (a b : List Nat) :
    Adapter.compare from_u8 st a b = -1 ∨ Adapter.compare from_u8 st a b = 0 ∨
      Adapter.compare from_u8 st a b = 1 := by
  unfold Adapter.compare orderingToInt
  cases st.compare (from_u8 a) (from_u8 b)
  · exact Or.inl rfl
  · exact Or.inr (Or.inl rfl)
  · exact Or.inr (Or.inr rfl)

/-- Claim C10: `OrdComparator::compare` does not depend on the identity string
supplied at construction. -/
theorem ord_comparator_compare_ignores_name {K : Type} [Ord K]
    (n1 n2 : String) (a b : K) :
    OrdComparator.compare (OrdComparator.new n1) a b =
      OrdComparator.compare (OrdComparator.new n2) a b := rfl
